import Mathlib

/-!
Verification of the bus-status / delay-estimation calculator found in
`src/components/BusCard.tsx` of the bus-tracker repository.

The component's logic works on JavaScript numbers obtained from
`new Date(str).getTime()`.  We embed JavaScript's number semantics for the
operations actually used (subtraction, multiplication, division, comparison,
`Math.abs`, `Math.round`) over exact rationals extended with `NaN` and the two
signed infinities, so that the division-by-zero behaviour of the source is
modelled faithfully.  Timestamp strings are kept abstract: every operation
takes a caller-supplied `parse : String → ℚ` mapping a (non-empty) timestamp
string to its epoch-milliseconds value, matching the spec's assumption that
timestamps arrive pre-parsed into comparable instants.  The wall-clock instant
`now` is an explicit parameter.
-/

/-- JavaScript number values arising in the calculator: finite values (exact
rationals), `NaN`, and the signed infinities. -/
inductive JSNum where
  | nan : JSNum
  | inf : JSNum
  | ninf : JSNum
  | num : ℚ → JSNum
deriving DecidableEq, Repr

/-- JavaScript `a <= b`: false whenever either side is `NaN`. -/
def jsLe : JSNum → JSNum → Bool
  | .nan, _ => false
  | _, .nan => false
  | .ninf, _ => true
  | _, .inf => true
  | .inf, _ => false
  | .num _, .ninf => false
  | .num a, .num b => decide (a ≤ b)

/-- JavaScript `a < b`: false whenever either side is `NaN`. -/
def jsLt : JSNum → JSNum → Bool
  | .nan, _ => false
  | _, .nan => false
  | .inf, _ => false
  | _, .ninf => false
  | .ninf, _ => true
  | .num _, .inf => true
  | .num a, .num b => decide (a < b)

/-- JavaScript subtraction extended to infinities and `NaN`. -/
def jsSub : JSNum → JSNum → JSNum
  | .nan, _ => .nan
  | _, .nan => .nan
  | .inf, .inf => .nan
  | .inf, _ => .inf
  | .ninf, .ninf => .nan
  | .ninf, _ => .ninf
  | .num _, .inf => .ninf
  | .num _, .ninf => .inf
  | .num a, .num b => .num (a - b)

/-- JavaScript multiplication extended to infinities and `NaN`
(`0 * ±Infinity = NaN`). -/
def jsMul : JSNum → JSNum → JSNum
  | .nan, _ => .nan
  | _, .nan => .nan
  | .inf, .inf => .inf
  | .inf, .ninf => .ninf
  | .ninf, .inf => .ninf
  | .ninf, .ninf => .inf
  | .inf, .num b => if 0 < b then .inf else if b < 0 then .ninf else .nan
  | .ninf, .num b => if 0 < b then .ninf else if b < 0 then .inf else .nan
  | .num a, .inf => if 0 < a then .inf else if a < 0 then .ninf else .nan
  | .num a, .ninf => if 0 < a then .ninf else if a < 0 then .inf else .nan
  | .num a, .num b => .num (a * b)

/-- JavaScript division extended to infinities and `NaN`: a finite nonzero
value divided by (positive) zero gives a signed infinity and `0 / 0 = NaN`,
as in the source's unguarded `timeElapsed / totalJourneyTime`. -/
def jsDiv : JSNum → JSNum → JSNum
  | .nan, _ => .nan
  | _, .nan => .nan
  | .inf, .inf => .nan
  | .inf, .ninf => .nan
  | .ninf, .inf => .nan
  | .ninf, .ninf => .nan
  | .inf, .num b => if b < 0 then .ninf else .inf
  | .ninf, .num b => if b < 0 then .inf else .ninf
  | .num _, .inf => .num 0
  | .num _, .ninf => .num 0
  | .num a, .num b =>
      if b = 0 then (if 0 < a then .inf else if a < 0 then .ninf else .nan)
      else .num (a / b)

/-- JavaScript `Math.abs`. -/
def jsAbs : JSNum → JSNum
  | .nan => .nan
  | .inf => .inf
  | .ninf => .inf
  | .num a => .num |a|

/-- JavaScript `Math.round`: rounds half toward positive infinity,
i.e. `⌊x + 1/2⌋` on finite values; fixes `NaN` and the infinities. -/
def jsRound : JSNum → JSNum
  | .nan => .nan
  | .inf => .inf
  | .ninf => .ninf
  | .num a => .num ((⌊a + 1/2⌋ : ℤ) : ℚ)

/-- The fields of a `BusData` record used by the calculator and the betting
eligibility logic (`src/services/busService` supplies it; timestamps are
serialized strings, `expectedDeparture` and `scheduledDeparture` possibly
absent as observed by the source's falsiness checks). -/
structure BusData where
  id : String
  routeNumber : String
  expectedDeparture : Option String
  scheduledDeparture : Option String
  scheduledArrival : String
deriving DecidableEq, Repr

/-- JavaScript falsiness of an optional string field: `undefined`/`null` and
the empty string are falsy; every other string is truthy. -/
def isFalsy : Option String → Bool
  | none => true
  | some s => s.isEmpty

/-- JavaScript `a || b` on optional string fields: yields `a` when truthy,
otherwise `b`. -/
def jsOr (a b : Option String) : Option String :=
  if isFalsy a then b else a

/-- `new Date(o).getTime()` on an optional timestamp string: `undefined` or
the empty string give an Invalid Date, hence `NaN`; a non-empty valid
timestamp parses to its finite epoch-milliseconds value. -/
def parseJS (parse : String → ℚ) : Option String → JSNum
  | none => .nan
  | some s => if s.isEmpty then .nan else .num (parse s)

/-- `const departureTime = bus.expectedDeparture || bus.scheduledDeparture`. -/
def departureTime (bus : BusData) : Option String :=
  jsOr bus.expectedDeparture bus.scheduledDeparture

/-- `isActiveBus` from the source: `departure <= now && now <= arrival`,
with `now` made an explicit parameter (epoch milliseconds). -/
def isActiveBus (parse : String → ℚ) (now : ℚ) (bus : BusData) : Bool :=
  let departure := parseJS parse (departureTime bus)
  let arrival := parseJS parse (some bus.scheduledArrival)
  jsLe departure (.num now) && jsLe (.num now) arrival

/-- `getCurrentDelay` from the source: `null` when `expectedDeparture` or
`scheduledDeparture` is falsy, otherwise
`Math.round((delay * journeyProportion) / (1000 * 60))` where
`journeyProportion = timeElapsed / totalJourneyTime` is not guarded against
a zero `totalJourneyTime`. -/
def getCurrentDelay (parse : String → ℚ) (now : ℚ) (bus : BusData) : Option JSNum :=
  if isFalsy bus.expectedDeparture || isFalsy bus.scheduledDeparture then none
  else
    let currentExpected := parseJS parse bus.expectedDeparture
    let currentScheduled := parseJS parse bus.scheduledDeparture
    let totalJourneyTime :=
      jsSub (parseJS parse (some bus.scheduledArrival)) (parseJS parse bus.scheduledDeparture)
    let timeElapsed := jsSub (.num now) (parseJS parse bus.scheduledDeparture)
    let journeyProportion := jsDiv timeElapsed totalJourneyTime
    let delay := jsSub currentExpected currentScheduled
    some (jsRound (jsDiv (jsMul delay journeyProportion) (.num 60000)))

/-- The possible delay badges rendered by `renderDelay`. -/
inductive DelayBadge where
  | noBadge : DelayBadge
  | onTime : DelayBadge
  | behind : JSNum → DelayBadge
  | ahead : JSNum → DelayBadge
deriving DecidableEq, Repr

/-- The classification step of `renderDelay`, as a pure function of the delay
result: `null` shows nothing, `Math.abs(delay) < 1` is "On Time",
`delay > 0` is "behind", anything else is "ahead" by `Math.abs(delay)`. -/
def classifyDelay : Option JSNum → DelayBadge
  | none => .noBadge
  | some d =>
      if jsLt (jsAbs d) (.num 1) then .onTime
      else if jsLt (.num 0) d then .behind d
      else .ahead (jsAbs d)

/-- `renderDelay` from the source: classification applied to
`getCurrentDelay`. -/
def renderDelay (parse : String → ℚ) (now : ℚ) (bus : BusData) : DelayBadge :=
  classifyDelay (getCurrentDelay parse now bus)

/-- A wager prediction: `'early' | 'late'`. -/
inductive Prediction where
  | early : Prediction
  | late : Prediction
deriving DecidableEq, Repr

/-- A wager stored in the user store's `bets` collection. -/
structure Bet where
  busId : String
  amount : ℚ
  prediction : Prediction
  routeNumber : String
  resolved : Bool
deriving DecidableEq, Repr

/-- `const existingBet = bets.find(b => b.busId === bus.id && !b.resolved)`. -/
def existingBet (bets : List Bet) (bus : BusData) : Option Bet :=
  bets.find? (fun b => b.busId == bus.id && !b.resolved)

/-- `const canPlaceBet = isActiveBus() && !existingBet && balance >= betAmount`. -/
def canPlaceBet (parse : String → ℚ) (now : ℚ) (bus : BusData)
    (bets : List Bet) (balance betAmount : ℚ) : Bool :=
  isActiveBus parse now bus && (existingBet bets bus).isNone
    && decide (balance ≥ betAmount)

/-- The argument record passed to the store's `placeBet`. -/
structure BetRequest where
  busId : String
  amount : ℚ
  prediction : Prediction
  routeNumber : String
deriving DecidableEq, Repr

/-- The argument record passed to the notification sink's `toast`. -/
structure ToastMsg where
  title : String
  description : String
deriving DecidableEq, Repr

/-- The observable effects of one invocation of `handlePlaceBet`: which
`placeBet` call was issued (if any) and which toast was emitted (if any). -/
structure HandlerEffect where
  placed : Option BetRequest
  toast : Option ToastMsg
deriving DecidableEq, Repr

/-- Rendering of a prediction inside the toast description string. -/
def Prediction.show : Prediction → String
  | .early => "early"
  | .late => "late"

/-- `handlePlaceBet` from the source: returns immediately when
`canPlaceBet` is false, otherwise calls `placeBet` with the bet request and
emits the confirmation toast. -/
def handlePlaceBet (parse : String → ℚ) (now : ℚ) (bus : BusData)
    (bets : List Bet) (balance betAmount : ℚ) (prediction : Prediction) :
    HandlerEffect :=
  if !canPlaceBet parse now bus bets balance betAmount then
    { placed := none, toast := none }
  else
    { placed := some { busId := bus.id, amount := betAmount,
                       prediction := prediction, routeNumber := bus.routeNumber },
      toast := some { title := "Bet Placed!",
                      description := "£" ++ toString betAmount ++ " on bus "
                        ++ bus.routeNumber ++ " arriving " ++ prediction.show } }

/-- The spec's effective departure: `expectedDeparture ?? scheduledDeparture`
(presence, not truthiness). -/
def effectiveDeparture (bus : BusData) : Option String :=
  match bus.expectedDeparture with
  | some e => some e
  | none => bus.scheduledDeparture

/-! Concrete sample data used to exercise the definitions: a parse function
assigning epoch-milliseconds values to the timestamp strings of the samples
(scheduled departure "S" at 0 = 10:00, expected departure "E" at 10:10,
early expected departure "EA" at 09:52, scheduled arrival "A" at 11:00). -/

/-- Sample timestamp parsing: "S" is 10:00 (0 ms), "E" is 10:10 (600000 ms),
"EA" is 09:52 (-480000 ms), "A" is 11:00 (3600000 ms). -/
def parseEx : String → ℚ := fun t =>
  if t = "E" then 600000
  else if t = "EA" then -480000
  else if t = "A" then 3600000
  else 0

/-- The worked example record of the spec: scheduled 10:00, expected 10:10,
arrival 11:00. -/
def busEx : BusData :=
  { id := "b1", routeNumber := "42", expectedDeparture := some "E",
    scheduledDeparture := some "S", scheduledArrival := "A" }

/-- A record whose expected departure is 8 minutes earlier than scheduled. -/
def busAheadEx : BusData :=
  { id := "b2", routeNumber := "42", expectedDeparture := some "EA",
    scheduledDeparture := some "S", scheduledArrival := "A" }

/-- A degenerate record: scheduled arrival equal to scheduled departure. -/
def busDegEx : BusData :=
  { id := "b3", routeNumber := "42", expectedDeparture := some "E",
    scheduledDeparture := some "S", scheduledArrival := "S" }

/-- A record with no expected departure. -/
def busMissingEx : BusData :=
  { id := "b4", routeNumber := "42", expectedDeparture := none,
    scheduledDeparture := some "S", scheduledArrival := "A" }

/-- A record whose expected departure is present but the empty string. -/
def busEmptyEx : BusData :=
  { id := "b5", routeNumber := "42", expectedDeparture := some "",
    scheduledDeparture := some "S", scheduledArrival := "A" }

theorem parseEx_E : parseEx "E" = 600000 := by
  unfold parseEx
  rw [if_pos rfl]

theorem parseEx_EA : parseEx "EA" = -480000 := by
  unfold parseEx
  rw [if_neg (by decide), if_pos rfl]

theorem parseEx_S : parseEx "S" = 0 := by
  unfold parseEx
  rw [if_neg (by decide), if_neg (by decide), if_neg (by decide)]

theorem parseEx_A : parseEx "A" = 3600000 := by
  unfold parseEx
  rw [if_neg (by decide), if_neg (by decide), if_pos rfl]

theorem busEx_arr : busEx.scheduledArrival = "A" := rfl

theorem busAheadEx_arr : busAheadEx.scheduledArrival = "A" := rfl

/-- Evaluation lemma for `getCurrentDelay` when both departure fields are
present with non-empty timestamp strings and the parsed arrival differs from
the parsed scheduled departure: the source computes
`Math.round((delay * journeyProportion) / 60000)` on finite values. -/
theorem getCurrentDelay_eq_num (parse : String → ℚ) (now : ℚ) (bus : BusData)
    (e s : String) (he : bus.expectedDeparture = some e) (hene : e.isEmpty = false)
    (hs : bus.scheduledDeparture = some s) (hsne : s.isEmpty = false)
    (harr : bus.scheduledArrival.isEmpty = false)
    (hT : parse bus.scheduledArrival ≠ parse s) :
    getCurrentDelay parse now bus =
      some (JSNum.num ((⌊(parse e - parse s) *
        ((now - parse s) / (parse bus.scheduledArrival - parse s)) / 60000 + 1/2⌋ : ℤ) : ℚ)) := by
  have hT' : parse bus.scheduledArrival - parse s ≠ 0 := sub_ne_zero.mpr hT
  simp [getCurrentDelay, he, hs, hene, hsne, harr, isFalsy, parseJS, jsSub, jsDiv, jsMul,
    jsRound, hT']

/-- C1: for every record and instant `now`, `isActiveBus` returns true if and
only if `effectiveDeparture <= now <= scheduledArrival`, where the effective
departure is `expectedDeparture` when present and `scheduledDeparture`
otherwise; both comparisons are inclusive. (The record's timestamp strings
are assumed well-formed, i.e. non-empty when present.) -/
theorem isActiveBus_iff_window (parse : String → ℚ) (now : ℚ) (bus : BusData)
    (d s : String)
    (hs : bus.scheduledDeparture = some s) (hsne : s.isEmpty = false)
    (harr : bus.scheduledArrival.isEmpty = false)
    (hexp : ∀ e, bus.expectedDeparture = some e → e.isEmpty = false)
    (hd : effectiveDeparture bus = some d) :
    isActiveBus parse now bus = true ↔
      parse d ≤ now ∧ now ≤ parse bus.scheduledArrival := by
  cases hcase : bus.expectedDeparture with
  | some e =>
      have hene := hexp e hcase
      have hde : e = d := by
        simpa [effectiveDeparture, hcase] using hd
      subst hde
      simp [isActiveBus, departureTime, jsOr, isFalsy, hcase, hene, parseJS, jsLe, harr]
  | none =>
      have hds : s = d := by
        have := hd
        simp only [effectiveDeparture, hcase, hs] at this
        exact Option.some.inj this
      subst hds
      simp [isActiveBus, departureTime, jsOr, isFalsy, hcase, hs, hsne, parseJS, jsLe, harr]

/-- C1 witness: the sample record is active at 10:30, and indeed
10:10 <= 10:30 <= 11:00. -/
theorem isActiveBus_iff_window_witness : isActiveBus parseEx 1800000 busEx = true := by
  have h := isActiveBus_iff_window parseEx 1800000 busEx "E" "S" rfl (by decide) (by decide)
    (by intro e he; injection he with h2; subst h2; decide) rfl
  refine h.mpr ?_
  rw [busEx_arr, parseEx_E, parseEx_A]
  norm_num

/-- C2: when both departure timestamps are present (and non-empty) and the
parsed arrival differs from the parsed scheduled departure, the current delay
is `round(rawDelay * journeyProportion)` converted to minutes, i.e.
`round(((expectedDeparture - scheduledDeparture) *
((now - scheduledDeparture) / (scheduledArrival - scheduledDeparture))) / 60000)`
with JavaScript round-half-up rounding. -/
theorem getCurrentDelay_interpolation (parse : String → ℚ) (now : ℚ) (bus : BusData)
    (e s : String) (he : bus.expectedDeparture = some e) (hene : e.isEmpty = false)
    (hs : bus.scheduledDeparture = some s) (hsne : s.isEmpty = false)
    (harr : bus.scheduledArrival.isEmpty = false)
    (hT : parse bus.scheduledArrival ≠ parse s) :
    getCurrentDelay parse now bus =
      some (JSNum.num ((⌊(parse e - parse s) *
        ((now - parse s) / (parse bus.scheduledArrival - parse s)) / 60000 + 1/2⌋ : ℤ) : ℚ)) :=
  getCurrentDelay_eq_num parse now bus e s he hene hs hsne harr hT

/-- C2 witness: the spec's worked example — scheduled 10:00, expected 10:10,
arrival 11:00, now 10:30 — yields a current delay of 5 minutes. -/
theorem getCurrentDelay_interpolation_witness :
    getCurrentDelay parseEx 1800000 busEx = some (JSNum.num 5) := by
  have h := getCurrentDelay_interpolation parseEx 1800000 busEx "E" "S" rfl (by decide) rfl
    (by decide) (by decide) (by rw [busEx_arr, parseEx_A, parseEx_S]; norm_num)
  rw [h, busEx_arr, parseEx_E, parseEx_S, parseEx_A]
  norm_num

/-- C3 evaluation: on a degenerate schedule (scheduled arrival equal to
scheduled departure) with an expected departure 10 minutes late, evaluated 30
minutes in, the source's unguarded division by the zero total journey time
makes `getCurrentDelay` return positive infinity — not the absent result the
spec requires. -/
theorem getCurrentDelay_degenerate_infinite :
    getCurrentDelay parseEx 1800000 busDegEx = some JSNum.inf := by
  have hE : "E".isEmpty = false := by decide
  have hS : "S".isEmpty = false := by decide
  simp only [getCurrentDelay, busDegEx, isFalsy, hE, hS, parseJS, if_neg, Bool.false_or,
    Bool.or_self, Bool.false_eq_true, if_false, parseEx_E, parseEx_S]
  norm_num [jsSub, jsDiv, jsMul, jsRound]

/-- C4: when `expectedDeparture` or `scheduledDeparture` is absent,
`getCurrentDelay` returns the absent result (`none`); absence is a
first-class return value, not an exception. -/
theorem getCurrentDelay_absent_of_missing (parse : String → ℚ) (now : ℚ) (bus : BusData)
    (h : bus.expectedDeparture = none ∨ bus.scheduledDeparture = none) :
    getCurrentDelay parse now bus = none := by
  rcases h with h | h <;> simp [getCurrentDelay, isFalsy, h]

/-- C4 witness: the sample record without an expected departure gets no delay
estimate. -/
theorem getCurrentDelay_absent_of_missing_witness :
    getCurrentDelay parseEx 1800000 busMissingEx = none :=
  getCurrentDelay_absent_of_missing parseEx 1800000 busMissingEx (Or.inl rfl)

/-- C5: the delay classification maps the absent result to no badge,
`|delay| < 1` to "on time", positive delays to "behind" by that many minutes,
and negative delays to "ahead" by the absolute value; in particular a delay of
-8 minutes at full journey completion is classified "ahead by 8 minutes". -/
theorem classifyDelay_policy :
    classifyDelay none = DelayBadge.noBadge ∧
    (∀ q : ℚ, classifyDelay (some (JSNum.num q)) =
      if |q| < 1 then DelayBadge.onTime
      else if 0 < q then DelayBadge.behind (JSNum.num q)
      else DelayBadge.ahead (JSNum.num |q|)) ∧
    renderDelay parseEx 3600000 busAheadEx = DelayBadge.ahead (JSNum.num 8) := by
  refine ⟨rfl, ?_, ?_⟩
  · intro q
    simp [classifyDelay, jsAbs, jsLt]
  · have h := getCurrentDelay_eq_num parseEx 3600000 busAheadEx "EA" "S" rfl (by decide) rfl
      (by decide) (by decide) (by rw [busAheadEx_arr, parseEx_A, parseEx_S]; norm_num)
    rw [renderDelay, h, busAheadEx_arr, parseEx_EA, parseEx_S, parseEx_A]
    norm_num [classifyDelay, jsAbs, jsLt]

/-- C6: bet-placement eligibility holds exactly when the record is currently
active, no unresolved wager for this record's identity is in the store, and
the balance covers the stake. -/
theorem canPlaceBet_iff (parse : String → ℚ) (now : ℚ) (bus : BusData)
    (bets : List Bet) (balance betAmount : ℚ) :
    canPlaceBet parse now bus bets balance betAmount = true ↔
      (isActiveBus parse now bus = true ∧
       (∀ b ∈ bets, b.busId = bus.id → b.resolved = true) ∧
       betAmount ≤ balance) := by
  simp [canPlaceBet, existingBet, Option.isNone_iff_eq_none, List.find?_eq_none, not_and,
    ge_iff_le, Bool.not_eq_false, Bool.not_eq_true, and_assoc]

/-- C7: `isActiveBus` and `getCurrentDelay` are pure functions of
(record, now): identical inputs give identical results. -/
theorem calculator_pure (parse : String → ℚ) (bus1 bus2 : BusData) (now1 now2 : ℚ)
    (hb : bus1 = bus2) (hn : now1 = now2) :
    isActiveBus parse now1 bus1 = isActiveBus parse now2 bus2 ∧
      getCurrentDelay parse now1 bus1 = getCurrentDelay parse now2 bus2 := by
  subst hb
  subst hn
  exact ⟨rfl, rfl⟩

/-- C7 witness: two evaluations on the sample record at 10:30 agree. -/
theorem calculator_pure_witness :
    isActiveBus parseEx 1800000 busEx = isActiveBus parseEx 1800000 busEx ∧
      getCurrentDelay parseEx 1800000 busEx = getCurrentDelay parseEx 1800000 busEx :=
  calculator_pure parseEx busEx busEx 1800000 1800000 rfl rfl

/-- C8: when eligibility fails, the bet-placement handler returns without
calling `placeBet` and without emitting a toast, for either prediction. -/
theorem handlePlaceBet_noop (parse : String → ℚ) (now : ℚ) (bus : BusData)
    (bets : List Bet) (balance betAmount : ℚ) (prediction : Prediction)
    (h : canPlaceBet parse now bus bets balance betAmount = false) :
    handlePlaceBet parse now bus bets balance betAmount prediction =
      { placed := none, toast := none } := by
  simp [handlePlaceBet, h]

/-- C8 witness: with a zero balance and a stake of 1, the handler does
nothing. -/
theorem handlePlaceBet_noop_witness :
    handlePlaceBet parseEx 1800000 busEx [] 0 1 Prediction.early =
      { placed := none, toast := none } :=
  handlePlaceBet_noop parseEx 1800000 busEx [] 0 1 Prediction.early (by
    have h : (decide ((0:ℚ) ≥ 1)) = false := decide_eq_false (by norm_num)
    simp [canPlaceBet, h])

/-- C9: with the scheduled arrival strictly after the scheduled departure and
the expected departure at or after the scheduled departure, the computed delay
is monotonically nondecreasing in `now`. -/
theorem getCurrentDelay_monotone (parse : String → ℚ) (bus : BusData)
    (e s : String) (now1 now2 : ℚ)
    (he : bus.expectedDeparture = some e) (hene : e.isEmpty = false)
    (hs : bus.scheduledDeparture = some s) (hsne : s.isEmpty = false)
    (harr : bus.scheduledArrival.isEmpty = false)
    (hlt : parse s < parse bus.scheduledArrival)
    (hdel : parse s ≤ parse e)
    (hnow : now1 ≤ now2) :
    ∃ r1 r2 : ℚ,
      getCurrentDelay parse now1 bus = some (JSNum.num r1) ∧
      getCurrentDelay parse now2 bus = some (JSNum.num r2) ∧ r1 ≤ r2 := by
  have hT : parse bus.scheduledArrival ≠ parse s := ne_of_gt hlt
  refine ⟨_, _, getCurrentDelay_eq_num parse now1 bus e s he hene hs hsne harr hT,
    getCurrentDelay_eq_num parse now2 bus e s he hene hs hsne harr hT, ?_⟩
  have hTpos : (0:ℚ) < parse bus.scheduledArrival - parse s := sub_pos.mpr hlt
  have hD : (0:ℚ) ≤ parse e - parse s := sub_nonneg.mpr hdel
  have key : (parse e - parse s) * ((now1 - parse s) / (parse bus.scheduledArrival - parse s))
        / 60000 + 1/2 ≤
      (parse e - parse s) * ((now2 - parse s) / (parse bus.scheduledArrival - parse s))
        / 60000 + 1/2 := by
    gcongr
  exact_mod_cast Int.floor_le_floor key

/-- C9 witness: on the sample record the delay at 10:10 is at most the delay
at 10:30. -/
theorem getCurrentDelay_monotone_witness :
    ∃ r1 r2 : ℚ,
      getCurrentDelay parseEx 600000 busEx = some (JSNum.num r1) ∧
      getCurrentDelay parseEx 1800000 busEx = some (JSNum.num r2) ∧ r1 ≤ r2 :=
  getCurrentDelay_monotone parseEx busEx "E" "S" 600000 1800000 rfl (by decide) rfl
    (by decide) (by decide)
    (by rw [parseEx_S, busEx_arr, parseEx_A]; norm_num)
    (by rw [parseEx_S, parseEx_E]; norm_num)
    (by norm_num)

/-- C10: an expected departure that is present but the empty string is treated
as absent by both derivations: `getCurrentDelay` returns `none`, and the
departure time used by `isActiveBus` falls back to the scheduled departure. -/
theorem emptyExpected_treated_absent (parse : String → ℚ) (now : ℚ) (bus : BusData)
    (h : bus.expectedDeparture = some "") :
    getCurrentDelay parse now bus = none ∧ departureTime bus = bus.scheduledDeparture := by
  have h0 : "".isEmpty = true := by decide
  constructor
  · simp [getCurrentDelay, isFalsy, h, h0]
  · simp [departureTime, jsOr, isFalsy, h, h0]

/-- C10 witness: the sample record with an empty expected departure. -/
theorem emptyExpected_treated_absent_witness :
    getCurrentDelay parseEx 1800000 busEmptyEx = none ∧
      departureTime busEmptyEx = busEmptyEx.scheduledDeparture :=
  emptyExpected_treated_absent parseEx 1800000 busEmptyEx rfl
